import Mathlib

/-!
Shallow embedding of `src/main.py` (FastF1 Flask API server).

The repository keeps a single process-wide snapshot (`session_data`) and a
current-session handle (`current_session`).  `load_session` asks the external
telemetry collaborator (fastf1) for a session; `update_session_data` reshapes
the collaborator's tables into the snapshot; the Flask routes read slices of
the snapshot.  The collaborator is external, so its tables appear here as
plain typed rows, and each place where Python `int(...)` may raise is modelled
by an `Option Int` cell (`none` = the conversion raises).  The Python
`try/except` boundaries become `Except`-valued extraction functions; the one
big `try` of `update_session_data` becomes a sequence of matches where an
error returns the state accumulated so far (exactly the mutation order of the
Python body: earlier `session_data[...] = ...` assignments persist).
-/

namespace F1

/-- Python `int(cell)`: `none` means the raw cell is not int-convertible and
the call raises (modelled as `Except.error`). -/
def intConv : Option Int → Except Unit Int
  | none => Except.error ()
  | some k => Except.ok k

/-- A row of the collaborator's `session.results` table, with exactly the
columns `update_session_data` reads.  `Position`, `DriverNumber` and the
inner value of `GridPosition` pass through Python `int()`, so they are
`Option Int` cells; the outer `Option` on `GridPosition` models the
`'GridPosition' in row` presence test. -/
structure ResultRow where
  Position : Option Int
  Abbreviation : String
  FullName : String
  TeamName : String
  DriverNumber : Option Int
  GridPosition : Option (Option Int)
  Status : String
deriving DecidableEq, Repr

/-- One entry of `session_data['positions']` (the dict literal built at
src/main.py lines 60-68). -/
structure DriverResult where
  position : Int
  driver : String
  full_name : String
  team : String
  number : Int
  grid_position : Option Int
  status : String
deriving DecidableEq, Repr

/-- A row of the collaborator's `session.track_status` table; `Time` is kept
in its already-string-rendered form since the code only applies `str` to it. -/
structure TrackStatusRow where
  Time : String
  Status : String
deriving DecidableEq, Repr

/-- One entry of `session_data['track_status']`. -/
structure TrackStatusEvent where
  time : String
  status : String
  status_code : String
deriving DecidableEq, Repr

/-- A row of the collaborator's `session.laps` table, with the columns the
code reads.  `LapTime` and `PitInTime` are pandas Timedelta cells counted in
microseconds; `none` models a NaT cell (so `.notna()` is `Option.isSome`).
`LapNumber` passes through `int()`.  The outer `Option` of `PitOutTime`
models the `'PitOutTime' in row` presence test. -/
structure LapRow where
  Driver : String
  Team : String
  LapNumber : Option Int
  LapTime : Option Int
  PitInTime : Option Int
  PitOutTime : Option Int
deriving DecidableEq, Repr

/-- One entry of `session_data['fastest_laps']`; `lap_time_seconds` is the
value of `Timedelta.total_seconds()`, an exact rational here. -/
structure LapRecord where
  driver : String
  team : String
  lap_number : Int
  lap_time : String
  lap_time_seconds : ℚ
deriving DecidableEq, Repr

/-- One entry of `session_data['pit_stops']`; `pit_duration` is `none`
exactly when the Python conditional took the `else None` branch. -/
structure PitStopRecord where
  driver : String
  team : String
  lap_number : Int
  pit_duration : Option String
deriving DecidableEq, Repr

/-- A row of the collaborator's `session.race_control_messages` table;
`Category` is read through `row.get('Category', 'Other')`, so it is
optional. -/
structure MessageRow where
  Time : String
  Message : String
  Category : Option String
deriving DecidableEq, Repr

/-- One entry of `session_data['race_control_messages']`. -/
structure RCMessage where
  time : String
  message : String
  category : String
deriving DecidableEq, Repr

/-- The collaborator's loaded session handle, reduced to the four tables the
code consumes.  `track_status` and `race_control_messages` are `Option`
because the code guards them with `hasattr`. -/
structure Session where
  results : List ResultRow
  track_status : Option (List TrackStatusRow)
  laps : List LapRow
  race_control_messages : Option (List MessageRow)
deriving DecidableEq, Repr

/-- The process-wide `session_data` dict. -/
structure SessionData where
  positions : List DriverResult
  track_status : List TrackStatusEvent
  fastest_laps : List LapRecord
  pit_stops : List PitStopRecord
  race_control_messages : List RCMessage
  last_update : Option String
  is_live : Bool
deriving DecidableEq, Repr

/-- The initial `session_data` literal (src/main.py lines 22-30). -/
def initial_session_data : SessionData :=
  { positions := []
    track_status := []
    fastest_laps := []
    pit_stops := []
    race_control_messages := []
    last_update := none
    is_live := false }

/-- A Python list comprehension whose element expression may raise: rows are
consumed left to right and the first raise aborts the whole comprehension
(before any assignment happens). -/
def mapME {α β : Type} : List α → (α → Except Unit β) → Except Unit (List β)
  | [], _ => Except.ok []
  | a :: l, f =>
    match f a with
    | Except.error e => Except.error e
    | Except.ok b =>
      match mapME l f with
      | Except.error e => Except.error e
      | Except.ok bs => Except.ok (b :: bs)

/-- The dict built per results row (src/main.py lines 60-68), in the source's
evaluation order of the fallible conversions. -/
def driverResultOfRow (row : ResultRow) : Except Unit DriverResult := do
  let pos ← intConv row.Position
  let num ← intConv row.DriverNumber
  let grid ← match row.GridPosition with
    | none => Except.ok (none : Option Int)
    | some c => Except.map some (intConv c)
  Except.ok
    { position := pos
      driver := row.Abbreviation
      full_name := row.FullName
      team := row.TeamName
      number := num
      grid_position := grid
      status := row.Status }

/-- The positions comprehension (src/main.py lines 59-70). -/
def extractPositions (results : List ResultRow) : Except Unit (List DriverResult) :=
  mapME results driverResultOfRow

/-- The fixed `status_names` dict (src/main.py lines 77-84). -/
def status_names : String → Option String
  | "1" => some "Green Flag"
  | "2" => some "Yellow Flag"
  | "4" => some "Safety Car"
  | "5" => some "Red Flag"
  | "6" => some "Virtual Safety Car"
  | "7" => some "VSC Ending"
  | _ => none

/-- Python `status_names.get(code, 'Unknown')`. -/
def statusLabel (code : String) : String := (status_names code).getD "Unknown"

/-- The track-status derivation (src/main.py lines 75-93): keep rows whose
`Status` differs from `'1'`, then map the fixed label table with default
`'Unknown'`. -/
def extractTrackStatus (rows : List TrackStatusRow) : List TrackStatusEvent :=
  (rows.filter (fun r => r.Status != "1")).map
    (fun r => { time := r.Time, status := statusLabel r.Status, status_code := r.Status })

/-- Python `Timedelta.total_seconds()` for a microsecond count. -/
def totalSeconds (td : Int) : ℚ := (td : ℚ) / 1000000

/-- Python `str()` of a Timedelta.  The claims never depend on the exact text
form, only on it being a deterministic rendering of the microsecond count, so
the decimal rendering stands in for pandas' clock format. -/
def strTimedelta (td : Int) : String := toString td

/-- The comparison `sort_values('LapTime')` sorts by (rows reaching the sort
have passed the `notna` filter, so `getD` never sees the default). -/
def lapTimeLe (a b : LapRow) : Bool := decide (a.LapTime.getD 0 ≤ b.LapTime.getD 0)

/-- The dict built per fastest-lap row (src/main.py lines 100-106). -/
def lapRecordOfRow (row : LapRow) : Except Unit LapRecord := do
  let ln ← intConv row.LapNumber
  Except.ok
    { driver := row.Driver
      team := row.Team
      lap_number := ln
      lap_time := strTimedelta (row.LapTime.getD 0)
      lap_time_seconds := totalSeconds (row.LapTime.getD 0) }

/-- The fastest-laps derivation (src/main.py lines 96-108): filter rows with
a recorded `LapTime`, sort ascending by it, take the first 10, and build the
records (whose `int(LapNumber)` may raise). -/
def extractFastestLaps (laps : List LapRow) : Except Unit (List LapRecord) :=
  mapME (((laps.filter (fun r => r.LapTime.isSome)).mergeSort lapTimeLe).take 10)
    lapRecordOfRow

/-- The dict built per pit-stop row (src/main.py lines 113-118): the duration
is `str(PitOutTime - PitInTime)` when the `PitOutTime` field is on the row,
and `None` otherwise. -/
def pitStopOfRow (row : LapRow) : Except Unit PitStopRecord := do
  let ln ← intConv row.LapNumber
  Except.ok
    { driver := row.Driver
      team := row.Team
      lap_number := ln
      pit_duration :=
        match row.PitOutTime with
        | none => none
        | some ot => some (strTimedelta (ot - row.PitInTime.getD 0)) }

/-- The pit-stops derivation (src/main.py lines 111-120): keep rows with a
recorded `PitInTime` and build the records. -/
def extractPitStops (laps : List LapRow) : Except Unit (List PitStopRecord) :=
  mapME (laps.filter (fun r => r.PitInTime.isSome)) pitStopOfRow

/-- The race-control derivation (src/main.py lines 125-132). -/
def extractMessages (rows : List MessageRow) : List RCMessage :=
  rows.map (fun r => { time := r.Time, message := r.Message, category := r.Category.getD "Other" })

/-- The `hasattr(current_session, 'track_status')` guard plus the assignment
(src/main.py lines 73-93).  `update_session_data`'s `try` body is embedded as
one named step per Python statement group, in the source's order; each step
receives the snapshot as mutated so far and returns it as it stands when the
next statement runs (or when the exception is caught at line 136, since the
`except` keeps every assignment already made). -/
def stepTrackStatus (s : Session) (sd : SessionData) : SessionData :=
  match s.track_status with
  | none => sd
  | some ts => { sd with track_status := extractTrackStatus ts }

/-- The `hasattr(current_session, 'race_control_messages')` guard plus the
assignment (src/main.py lines 123-132). -/
def stepRaceControl (s : Session) (sd : SessionData) : SessionData :=
  match s.race_control_messages with
  | none => sd
  | some ms => { sd with race_control_messages := extractMessages ms }

/-- Statements after the fastest-laps assignment: pit stops, race control,
timestamp (src/main.py lines 110-134); an exception returns the snapshot as
mutated so far. -/
def afterFastest (s : Session) (sd : SessionData) (now : String) : SessionData :=
  match extractPitStops s.laps with
  | Except.error _ => sd
  | Except.ok pits =>
    { stepRaceControl s { sd with pit_stops := pits } with last_update := some now }

/-- Statements after the track-status block: fastest laps onwards
(src/main.py lines 95-134). -/
def afterTrack (s : Session) (sd : SessionData) (now : String) : SessionData :=
  match extractFastestLaps s.laps with
  | Except.error _ => sd
  | Except.ok fl => afterFastest s { sd with fastest_laps := fl } now

/-- The whole `try` body of `update_session_data` (src/main.py lines 56-134):
positions first, then the remaining statement groups. -/
def update_session_data_core (s : Session) (sd : SessionData) (now : String) : SessionData :=
  match extractPositions s.results with
  | Except.error _ => sd
  | Except.ok ps => afterTrack s (stepTrackStatus s { sd with positions := ps }) now

/-- The guard at the top of `update_session_data` (src/main.py lines 53-54):
return immediately when no session is loaded, otherwise run the body. -/
def update_session_data (cs : Option Session) (sd : SessionData) (now : String) : SessionData :=
  match cs with
  | none => sd
  | some s => update_session_data_core s sd now

/-- Python `load_session(year, event_name, session_type)` (src/main.py lines
32-47).  The collaborator call `fastf1.get_session(...)` followed by
`session.load()` is the opaque external step; its outcome is the `fetch`
argument (`Except.error` = either call raised).  On a raise the `except`
returns `False` with both globals untouched; on success the handle is stored
and `update_session_data` runs (it never raises). -/
def load_session (fetch : Except String Session) (cs : Option Session) (sd : SessionData)
    (now : String) : Bool × Option Session × SessionData :=
  match fetch with
  | Except.error _ => (false, cs, sd)
  | Except.ok s => (true, some s, update_session_data (some s) sd now)

/-- Python slice `l[:n]` for an `int` bound `n` (negative bounds count from
the end, clamped at zero). -/
def pySliceTo {α : Type} (l : List α) (n : Int) : List α :=
  if 0 ≤ n then l.take n.toNat else l.take (l.length - (-n).toNat)

/-- GET `/api/positions` data field (src/main.py lines 182-189). -/
def get_positions (sd : SessionData) : List DriverResult := sd.positions

/-- GET `/api/top3` data field (src/main.py lines 191-199), with the source's
conditional kept as written. -/
def get_top3 (sd : SessionData) : List DriverResult :=
  if 3 ≤ sd.positions.length then sd.positions.take 3 else sd.positions

/-- GET `/api/track-status` data field (src/main.py lines 201-208). -/
def get_track_status (sd : SessionData) : List TrackStatusEvent := sd.track_status

/-- GET `/api/fastest-laps` data field (src/main.py lines 210-218); `limit`
is the parsed query parameter, `none` when absent (Flask then supplies the
default 5). -/
def get_fastest_laps (sd : SessionData) (limit : Option Int) : List LapRecord :=
  pySliceTo sd.fastest_laps (limit.getD 5)

/-- GET `/api/pit-stops` data field (src/main.py lines 220-227). -/
def get_pit_stops (sd : SessionData) : List PitStopRecord := sd.pit_stops

/-- GET `/api/race-control` data field (src/main.py lines 229-237). -/
def get_race_control (sd : SessionData) (limit : Option Int) : List RCMessage :=
  pySliceTo sd.race_control_messages (limit.getD 10)

/-- GET `/api/status` response body (src/main.py lines 248-257). -/
structure StatusResponse where
  success : Bool
  session_loaded : Bool
  last_update : Option String
  is_live : Bool
deriving DecidableEq, Repr

/-- GET `/api/status` handler (src/main.py lines 248-257). -/
def get_status (cs : Option Session) (sd : SessionData) : StatusResponse :=
  { success := true
    session_loaded := cs.isSome
    last_update := sd.last_update
    is_live := sd.is_live }

/-- POST `/api/refresh` handler (src/main.py lines 259-273): HTTP status
code, `success` flag, and the snapshot after the call. -/
def refresh_data (cs : Option Session) (sd : SessionData) (now : String) :
    Nat × Bool × SessionData :=
  match cs with
  | none => (400, false, sd)
  | some _ => (200, true, update_session_data cs sd now)

/-- POST `/api/session/load` handler (src/main.py lines 160-180): HTTP status
code, `success` flag, new current session, new snapshot. -/
def load_session_endpoint (fetch : Except String Session) (cs : Option Session)
    (sd : SessionData) (now : String) : Nat × Bool × Option Session × SessionData :=
  match load_session fetch cs sd now with
  | (true, cs2, sd2) => (200, true, cs2, sd2)
  | (false, cs2, sd2) => (500, false, cs2, sd2)

/-- States of the process: the mutating operations are start-up (`init`),
`load_session` (from the load endpoint or the boot sequence) and
`/api/refresh`; every GET handler only reads. -/
inductive Reachable : Option Session × SessionData → Prop where
  | init : Reachable (none, initial_session_data)
  | load (fetch : Except String Session) (now : String) (st : Option Session × SessionData) :
      Reachable st → Reachable ((load_session fetch st.1 st.2 now).2)
  | refresh (now : String) (st : Option Session × SessionData) :
      Reachable st → Reachable (st.1, (refresh_data st.1 st.2 now).2.2)

/-! Concrete sessions and snapshots used to evaluate the operations on
explicit inputs. -/

/-- A session whose only results row has a `Position` cell that `int()`
rejects, while its track-status, lap and race-control tables all hold clean,
nonempty data. -/
def cex1Session : Session :=
  { results := [{ Position := none, Abbreviation := "PIA", FullName := "Oscar Piastri",
                  TeamName := "McLaren", DriverNumber := some 81, GridPosition := none,
                  Status := "Finished" }]
    track_status := some [{ Time := "0 days 00:10:00", Status := "2" }]
    laps := [{ Driver := "PIA", Team := "McLaren", LapNumber := some 3,
               LapTime := some 92000000, PitInTime := none, PitOutTime := none }]
    race_control_messages := some [{ Time := "0 days 00:10:00", Message := "YELLOW FLAG",
                                     Category := none }] }

/-- A session whose only results row has a `Position` cell that `int()`
rejects and nothing else. -/
def cex2Session : Session :=
  { results := [{ Position := none, Abbreviation := "NOR", FullName := "Lando Norris",
                  TeamName := "McLaren", DriverNumber := some 4, GridPosition := none,
                  Status := "Finished" }]
    track_status := none
    laps := []
    race_control_messages := none }

/-- A fully clean one-row session, with the optional collaborator attributes
absent. -/
def wSession : Session :=
  { results := [{ Position := some 1, Abbreviation := "VER", FullName := "Max Verstappen",
                  TeamName := "Red Bull", DriverNumber := some 1,
                  GridPosition := some (some 1), Status := "Finished" }]
    track_status := none
    laps := []
    race_control_messages := none }

/-- One concrete fastest-lap record. -/
def cex5Record : LapRecord :=
  { driver := "HAM", team := "Mercedes", lap_number := 3, lap_time := "90000000",
    lap_time_seconds := 90 }

/-- A snapshot holding exactly one fastest-lap record. -/
def cex5Data : SessionData :=
  { initial_session_data with fastest_laps := [cex5Record] }

/-- A lap row with a recorded pit-in time and an available pit-out field. -/
def wPitRow : LapRow :=
  { Driver := "LEC", Team := "Ferrari", LapNumber := some 14, LapTime := none,
    PitInTime := some 100000000, PitOutTime := some 123000000 }

/-! Helper lemmas about the embedding. -/

theorem mapME_ok_forall2 {α β : Type} {f : α → Except Unit β} :
    ∀ {l : List α} {out : List β}, mapME l f = Except.ok out →
      List.Forall₂ (fun a b => f a = Except.ok b) l out := by
  intro l
  induction l with
  | nil =>
    intro out h
    cases h
    exact List.Forall₂.nil
  | cons a l ih =>
    intro out h
    unfold mapME at h
    cases hfa : f a with
    | error e => rw [hfa] at h; cases h
    | ok b =>
      rw [hfa] at h
      cases hrest : mapME l f with
      | error e => rw [hrest] at h; cases h
      | ok bs =>
        rw [hrest] at h
        cases h
        exact List.Forall₂.cons hfa (ih hrest)

theorem mapME_ok_length {α β : Type} {f : α → Except Unit β} {l : List α} {out : List β}
    (h : mapME l f = Except.ok out) : out.length = l.length :=
  ((mapME_ok_forall2 h).length_eq).symm

theorem forall2_mem_left {α β : Type} {S : α → β → Prop} :
    ∀ {l : List α} {out : List β}, List.Forall₂ S l out → ∀ {a : α}, a ∈ l →
      ∃ b ∈ out, S a b := by
  intro l out h
  induction h with
  | nil => intro a ha; cases ha
  | cons hab _ ih =>
    intro a ha
    rcases List.mem_cons.mp ha with heq | hmem
    · subst heq; exact ⟨_, List.mem_cons_self _ _, hab⟩
    · rcases ih hmem with ⟨b, hbl, hS⟩
      exact ⟨b, List.mem_cons_of_mem _ hbl, hS⟩

theorem mapME_ok_mem {α β : Type} {f : α → Except Unit β} {l : List α} {out : List β}
    (h : mapME l f = Except.ok out) {a : α} (ha : a ∈ l) : ∃ b, f a = Except.ok b := by
  rcases forall2_mem_left (mapME_ok_forall2 h) ha with ⟨b, _, hb⟩
  exact ⟨b, hb⟩

theorem forall2_mem_right {α β : Type} {S : α → β → Prop} :
    ∀ {l : List α} {out : List β}, List.Forall₂ S l out → ∀ {b : β}, b ∈ out →
      ∃ a ∈ l, S a b := by
  intro l out h
  induction h with
  | nil => intro b hb; cases hb
  | cons hab _ ih =>
    intro b hb
    rcases List.mem_cons.mp hb with heq | hmem
    · subst heq; exact ⟨_, List.mem_cons_self _ _, hab⟩
    · rcases ih hmem with ⟨a, hal, hS⟩
      exact ⟨a, List.mem_cons_of_mem _ hal, hS⟩

theorem forall2_pairwise {α β : Type} {R : α → α → Prop} {S : α → β → Prop} {Q : β → β → Prop}
    (compat : ∀ a a' b b', S a b → S a' b' → R a a' → Q b b') :
    ∀ {l : List α} {out : List β}, List.Forall₂ S l out → l.Pairwise R → out.Pairwise Q := by
  intro l out h
  induction h with
  | nil => intro _; exact List.Pairwise.nil
  | cons hab hrest ih =>
    intro hp
    rcases List.pairwise_cons.mp hp with ⟨hhead, htail⟩
    refine List.pairwise_cons.mpr ⟨?_, ih htail⟩
    intro b' hb'
    rcases forall2_mem_right hrest hb' with ⟨a', ha'l, hS⟩
    exact compat _ _ _ _ hab hS (hhead a' ha'l)

theorem stepTrackStatus_is_live (s : Session) (sd : SessionData) :
    (stepTrackStatus s sd).is_live = sd.is_live := by
  unfold stepTrackStatus
  split <;> rfl

theorem stepRaceControl_is_live (s : Session) (sd : SessionData) :
    (stepRaceControl s sd).is_live = sd.is_live := by
  unfold stepRaceControl
  split <;> rfl

theorem afterFastest_is_live (s : Session) (sd : SessionData) (now : String) :
    (afterFastest s sd now).is_live = sd.is_live := by
  unfold afterFastest
  split
  · rfl
  · rw [show ({ stepRaceControl s { sd with pit_stops := _ } with
        last_update := some now } : SessionData).is_live
        = (stepRaceControl s { sd with pit_stops := _ }).is_live from rfl]
    rw [stepRaceControl_is_live]

theorem afterTrack_is_live (s : Session) (sd : SessionData) (now : String) :
    (afterTrack s sd now).is_live = sd.is_live := by
  unfold afterTrack
  split
  · rfl
  · rw [afterFastest_is_live]

theorem update_core_is_live (s : Session) (sd : SessionData) (now : String) :
    (update_session_data_core s sd now).is_live = sd.is_live := by
  unfold update_session_data_core
  split
  · rfl
  · rw [afterTrack_is_live, stepTrackStatus_is_live]

theorem update_session_data_is_live (cs : Option Session) (sd : SessionData) (now : String) :
    (update_session_data cs sd now).is_live = sd.is_live := by
  cases cs with
  | none => rfl
  | some s => exact update_core_is_live s sd now

theorem update_core_pos_error {s : Session} (sd : SessionData) (now : String)
    (h : extractPositions s.results = Except.error ()) :
    update_session_data_core s sd now = sd := by
  unfold update_session_data_core
  rw [h]

theorem stepTrackStatus_positions (s : Session) (sd : SessionData) :
    (stepTrackStatus s sd).positions = sd.positions := by
  unfold stepTrackStatus
  split <;> rfl

theorem stepRaceControl_positions (s : Session) (sd : SessionData) :
    (stepRaceControl s sd).positions = sd.positions := by
  unfold stepRaceControl
  split <;> rfl

theorem afterFastest_positions (s : Session) (sd : SessionData) (now : String) :
    (afterFastest s sd now).positions = sd.positions := by
  unfold afterFastest
  split
  · rfl
  · rw [show ({ stepRaceControl s { sd with pit_stops := _ } with
        last_update := some now } : SessionData).positions
        = (stepRaceControl s { sd with pit_stops := _ }).positions from rfl]
    rw [stepRaceControl_positions]

theorem afterTrack_positions (s : Session) (sd : SessionData) (now : String) :
    (afterTrack s sd now).positions = sd.positions := by
  unfold afterTrack
  split
  · rfl
  · rw [afterFastest_positions]

theorem update_core_positions {s : Session} (sd : SessionData) (now : String)
    {ps : List DriverResult} (h : extractPositions s.results = Except.ok ps) :
    (update_session_data_core s sd now).positions = ps := by
  unfold update_session_data_core
  rw [h, afterTrack_positions, stepTrackStatus_positions]

theorem stepRaceControl_track_status (s : Session) (sd : SessionData) :
    (stepRaceControl s sd).track_status = sd.track_status := by
  unfold stepRaceControl
  split <;> rfl

theorem afterFastest_track_status (s : Session) (sd : SessionData) (now : String) :
    (afterFastest s sd now).track_status = sd.track_status := by
  unfold afterFastest
  split
  · rfl
  · rw [show ({ stepRaceControl s { sd with pit_stops := _ } with
        last_update := some now } : SessionData).track_status
        = (stepRaceControl s { sd with pit_stops := _ }).track_status from rfl]
    rw [stepRaceControl_track_status]

theorem afterTrack_track_status (s : Session) (sd : SessionData) (now : String) :
    (afterTrack s sd now).track_status = sd.track_status := by
  unfold afterTrack
  split
  · rfl
  · rw [afterFastest_track_status]

theorem stepTrackStatus_ts_none {s : Session} (sd : SessionData) (h : s.track_status = none) :
    stepTrackStatus s sd = sd := by
  unfold stepTrackStatus
  rw [h]

theorem stepTrackStatus_ts_some {s : Session} (sd : SessionData)
    {ts : List TrackStatusRow} (h : s.track_status = some ts) :
    (stepTrackStatus s sd).track_status = extractTrackStatus ts := by
  unfold stepTrackStatus
  rw [h]

theorem update_core_ts_none {s : Session} (sd : SessionData) (now : String)
    (h : s.track_status = none) :
    (update_session_data_core s sd now).track_status = sd.track_status := by
  unfold update_session_data_core
  split
  · rfl
  · rw [afterTrack_track_status, stepTrackStatus_ts_none _ h]

theorem update_core_ts_some {s : Session} (sd : SessionData) (now : String)
    {ps : List DriverResult} (hps : extractPositions s.results = Except.ok ps)
    {ts : List TrackStatusRow} (h : s.track_status = some ts) :
    (update_session_data_core s sd now).track_status = extractTrackStatus ts := by
  unfold update_session_data_core
  rw [hps, afterTrack_track_status, stepTrackStatus_ts_some _ h]

theorem stepRaceControl_rc_none {s : Session} (sd : SessionData)
    (h : s.race_control_messages = none) : stepRaceControl s sd = sd := by
  unfold stepRaceControl
  rw [h]

theorem afterFastest_rc_none {s : Session} (sd : SessionData) (now : String)
    (h : s.race_control_messages = none) :
    (afterFastest s sd now).race_control_messages = sd.race_control_messages := by
  unfold afterFastest
  split
  · rfl
  · rw [show ({ stepRaceControl s { sd with pit_stops := _ } with
        last_update := some now } : SessionData).race_control_messages
        = (stepRaceControl s { sd with pit_stops := _ }).race_control_messages from rfl]
    rw [stepRaceControl_rc_none _ h]

theorem stepTrackStatus_rc (s : Session) (sd : SessionData) :
    (stepTrackStatus s sd).race_control_messages = sd.race_control_messages := by
  unfold stepTrackStatus
  split <;> rfl

theorem afterTrack_rc_none {s : Session} (sd : SessionData) (now : String)
    (h : s.race_control_messages = none) :
    (afterTrack s sd now).race_control_messages = sd.race_control_messages := by
  unfold afterTrack
  split
  · rfl
  · rw [afterFastest_rc_none _ _ h]

theorem update_core_rc_none {s : Session} (sd : SessionData) (now : String)
    (h : s.race_control_messages = none) :
    (update_session_data_core s sd now).race_control_messages
      = sd.race_control_messages := by
  unfold update_session_data_core
  split
  · rfl
  · rw [afterTrack_rc_none _ _ h, stepTrackStatus_rc]

theorem stepRaceControl_fastest (s : Session) (sd : SessionData) :
    (stepRaceControl s sd).fastest_laps = sd.fastest_laps := by
  unfold stepRaceControl
  split <;> rfl

theorem stepTrackStatus_fastest (s : Session) (sd : SessionData) :
    (stepTrackStatus s sd).fastest_laps = sd.fastest_laps := by
  unfold stepTrackStatus
  split <;> rfl

theorem afterFastest_fastest (s : Session) (sd : SessionData) (now : String) :
    (afterFastest s sd now).fastest_laps = sd.fastest_laps := by
  unfold afterFastest
  split
  · rfl
  · rw [show ({ stepRaceControl s { sd with pit_stops := _ } with
        last_update := some now } : SessionData).fastest_laps
        = (stepRaceControl s { sd with pit_stops := _ }).fastest_laps from rfl]
    rw [stepRaceControl_fastest]

theorem afterFastest_last_update {s : Session} (sd : SessionData) (now : String)
    {pits : List PitStopRecord} (h : extractPitStops s.laps = Except.ok pits) :
    (afterFastest s sd now).last_update = some now := by
  unfold afterFastest
  rw [h]

theorem update_core_full {s : Session} (sd : SessionData) (now : String)
    {ps : List DriverResult} (hps : extractPositions s.results = Except.ok ps)
    {fl : List LapRecord} (hfl : extractFastestLaps s.laps = Except.ok fl)
    {pits : List PitStopRecord} (hpits : extractPitStops s.laps = Except.ok pits) :
    (update_session_data_core s sd now).last_update = some now ∧
      (update_session_data_core s sd now).positions = ps ∧
      (update_session_data_core s sd now).fastest_laps = fl := by
  refine ⟨?_, update_core_positions sd now hps, ?_⟩
  · unfold update_session_data_core
    rw [hps]
    unfold afterTrack
    rw [hfl, afterFastest_last_update _ _ hpits]
  · unfold update_session_data_core
    rw [hps]
    unfold afterTrack
    rw [hfl, afterFastest_fastest]

theorem update_core_fastest_cases (s : Session) (sd : SessionData) (now : String) :
    (update_session_data_core s sd now).fastest_laps = sd.fastest_laps ∨
      ∃ fl, extractFastestLaps s.laps = Except.ok fl ∧
        (update_session_data_core s sd now).fastest_laps = fl := by
  unfold update_session_data_core
  split
  · exact Or.inl rfl
  · unfold afterTrack
    split
    · left
      rw [stepTrackStatus_fastest]
    · rename_i fl hfl
      exact Or.inr ⟨fl, hfl, by rw [afterFastest_fastest]⟩

theorem refresh_data_is_live (cs : Option Session) (sd : SessionData) (now : String) :
    (refresh_data cs sd now).2.2.is_live = sd.is_live := by
  cases cs with
  | none => rfl
  | some s => exact update_session_data_is_live (some s) sd now

theorem driverResultOfRow_pos_none {r : ResultRow} (h : r.Position = none) :
    driverResultOfRow r = Except.error () := by
  unfold driverResultOfRow
  rw [h]
  rfl

theorem driverResultOfRow_num_none {r : ResultRow} (h : r.DriverNumber = none) :
    driverResultOfRow r = Except.error () := by
  unfold driverResultOfRow
  rw [h]
  cases hp : r.Position <;> rfl

theorem extractPositions_error_of_bad {l : List ResultRow} {r : ResultRow} (hr : r ∈ l)
    (hbad : driverResultOfRow r = Except.error ()) :
    extractPositions l = Except.error () := by
  cases h : extractPositions l with
  | error e => cases e; rfl
  | ok ps =>
    exfalso
    rcases mapME_ok_mem h hr with ⟨b, hb⟩
    rw [hbad] at hb
    cases hb

/-! Claim theorems. -/

/-- Claim C3: when the collaborator fails (either `fastf1.get_session` or
`session.load()` raises), `load_session` returns `False`, propagates no
exception (it is a total function of the failure outcome), and both the
current-session handle and every field of the snapshot are exactly their
pre-call values. -/
theorem failed_load_preserves_state (err : String) (cs : Option Session) (sd : SessionData)
    (now : String) : load_session (Except.error err) cs sd now = (false, cs, sd) := rfl

/-- Claim C6: POST `/api/refresh` with no session ever loaded returns HTTP
400 with `success:false` and leaves every snapshot field unchanged. -/
theorem refresh_without_session_400 (sd : SessionData) (now : String) :
    refresh_data none sd now = (400, false, sd) := rfl

/-- Claim C7: GET `/api/top3` returns exactly `min 3 (positions.length)`
entries and those entries are the first entries of GET `/api/positions`, in
the same order. -/
theorem top3_is_first_three_positions (sd : SessionData) :
    get_top3 sd = (get_positions sd).take 3 ∧
      (get_top3 sd).length = min 3 (get_positions sd).length := by
  unfold get_top3 get_positions
  by_cases h : 3 ≤ sd.positions.length
  · rw [if_pos h]
    exact ⟨rfl, by rw [List.length_take]⟩
  · rw [if_neg h]
    have hle : sd.positions.length ≤ 3 := le_of_not_le h
    exact ⟨(List.take_of_length_le hle).symm, (min_eq_right hle).symm⟩

/-- Claim C9: `is_live` is initialized to `False`, no operation ever writes
it, so every reachable state has `is_live = false` and GET `/api/status`
always reports `is_live` as `false`. -/
theorem is_live_always_false (st : Option Session × SessionData) (h : Reachable st) :
    st.2.is_live = false ∧ (get_status st.1 st.2).is_live = false := by
  have key : st.2.is_live = false := by
    induction h with
    | init => rfl
    | load fetch now st _ ih =>
      cases fetch with
      | error e => exact ih
      | ok s =>
        show (update_session_data (some s) st.2 now).is_live = false
        rw [update_session_data_is_live]
        exact ih
    | refresh now st _ ih =>
      show (refresh_data st.1 st.2 now).2.2.is_live = false
      rw [refresh_data_is_live]
      exact ih
  exact ⟨key, key⟩

/-- Claim C9 witness at the initial state. -/
theorem is_live_always_false_witness :
    ((none : Option Session), initial_session_data).2.is_live = false ∧
      (get_status ((none : Option Session), initial_session_data).1
        ((none : Option Session), initial_session_data).2).is_live = false :=
  is_live_always_false ((none : Option Session), initial_session_data) Reachable.init

/-- Claim C10: a results row whose `Position` or `DriverNumber` does not
convert to an integer makes the first extraction raise before any snapshot
field is assigned; the exception is caught inside `update_session_data`, so
the caller sees no exception and every snapshot field (positions, track
status, fastest laps, pit stops, race control, `last_update`) keeps its
pre-call value. -/
theorem malformed_results_abort_whole_update (s : Session) (sd : SessionData) (now : String)
    (r : ResultRow) (hr : r ∈ s.results) (hbad : r.Position = none ∨ r.DriverNumber = none) :
    update_session_data (some s) sd now = sd := by
  show update_session_data_core s sd now = sd
  refine update_core_pos_error sd now (extractPositions_error_of_bad hr ?_)
  cases hbad with
  | inl h => exact driverResultOfRow_pos_none h
  | inr h => exact driverResultOfRow_num_none h

/-- Claim C10 witness: a one-row session whose `Position` cell does not
convert leaves the initial snapshot untouched. -/
theorem malformed_results_abort_whole_update_witness :
    update_session_data
        (some { results := [{ Position := none, Abbreviation := "VER", FullName := "V",
                              TeamName := "RB", DriverNumber := some 1, GridPosition := none,
                              Status := "Finished" }],
                track_status := none, laps := [], race_control_messages := none })
        initial_session_data "2024-12-08T13:00:00" = initial_session_data :=
  malformed_results_abort_whole_update _ initial_session_data _ _ (List.mem_singleton.mpr rfl)
    (Or.inl rfl)

/-- Claim C4: the track-status label mapping is total with the fixed table
(`1/2/4/5/6/7` to their labels, everything else to `Unknown`) and every row
whose code is `"1"` is excluded from the extracted track-status list. -/
theorem track_status_mapping_spec :
    (statusLabel "1" = "Green Flag" ∧ statusLabel "2" = "Yellow Flag" ∧
        statusLabel "4" = "Safety Car" ∧ statusLabel "5" = "Red Flag" ∧
        statusLabel "6" = "Virtual Safety Car" ∧ statusLabel "7" = "VSC Ending") ∧
      (∀ code : String, code ∉ (["1", "2", "4", "5", "6", "7"] : List String) →
        statusLabel code = "Unknown") ∧
      (∀ rows : List TrackStatusRow, ∀ ev ∈ extractTrackStatus rows, ev.status_code ≠ "1") := by
  refine ⟨⟨rfl, rfl, rfl, rfl, rfl, rfl⟩, ?_, ?_⟩
  · intro code h
    simp only [List.mem_cons, List.not_mem_nil, or_false, not_or] at h
    obtain ⟨h1, h2, h3, h4, h5, h6⟩ := h
    unfold statusLabel status_names
    split <;> simp_all
  · intro rows ev hev
    unfold extractTrackStatus at hev
    rcases List.mem_map.mp hev with ⟨r, hrmem, hreq⟩
    rcases List.mem_filter.mp hrmem with ⟨_, hne⟩
    subst hreq
    simpa using hne

/-- Claim C4 witness: an unseen code maps to `Unknown`, and a concrete
extracted event has a non-green code. -/
theorem track_status_mapping_spec_witness :
    statusLabel "3" = "Unknown" ∧
      ({ time := "t", status := "Yellow Flag", status_code := "2" } :
        TrackStatusEvent).status_code ≠ "1" :=
  ⟨track_status_mapping_spec.2.1 "3" (by decide),
    track_status_mapping_spec.2.2 [{ Time := "t", Status := "2" }]
      { time := "t", status := "Yellow Flag", status_code := "2" } (by decide)⟩

theorem pitStopOfRow_ok {r : LapRow} {rec : PitStopRecord}
    (h : pitStopOfRow r = Except.ok rec) :
    (rec.pit_duration = none ↔ r.PitOutTime = none) ∧
      (∀ ot, r.PitOutTime = some ot →
        rec.pit_duration = some (strTimedelta (ot - r.PitInTime.getD 0))) := by
  unfold pitStopOfRow at h
  cases hln : r.LapNumber with
  | none => rw [hln] at h; cases h
  | some ln =>
    rw [hln] at h
    cases h
    cases hot : r.PitOutTime with
    | none => simp [hot]
    | some ot => simp [hot]

/-- Claim C8: on a successful extraction pass, `pit_stops` holds exactly one
record per lap row with a recorded `PitInTime`, in order, and each record's
`pit_duration` is `none` exactly when the `PitOutTime` field is unavailable
on that row, and otherwise is the formatted difference of out-time and
in-time. -/
theorem pit_stops_characterization (laps : List LapRow) (out : List PitStopRecord)
    (h : extractPitStops laps = Except.ok out) :
    out.length = (laps.filter (fun r => r.PitInTime.isSome)).length ∧
      List.Forall₂ (fun (r : LapRow) (rec : PitStopRecord) =>
          (rec.pit_duration = none ↔ r.PitOutTime = none) ∧
            (∀ ot, r.PitOutTime = some ot →
              rec.pit_duration = some (strTimedelta (ot - r.PitInTime.getD 0))))
        (laps.filter (fun r => r.PitInTime.isSome)) out := by
  refine ⟨mapME_ok_length h, ?_⟩
  exact (mapME_ok_forall2 h).imp (fun _ _ hok => pitStopOfRow_ok hok)

theorem extractFastestLaps_nil : extractFastestLaps [] = Except.ok [] := by
  simp [extractFastestLaps, List.mergeSort_nil, mapME]

/-- Claim C8 witness on a one-row lap table with an available out-time. -/
theorem pit_stops_characterization_witness :
    ([{ driver := "LEC", team := "Ferrari", lap_number := 14,
        pit_duration := some (strTimedelta 23000000) }] : List PitStopRecord).length
        = ([wPitRow].filter (fun r => r.PitInTime.isSome)).length ∧
      List.Forall₂ (fun (r : LapRow) (rec : PitStopRecord) =>
          (rec.pit_duration = none ↔ r.PitOutTime = none) ∧
            (∀ ot, r.PitOutTime = some ot →
              rec.pit_duration = some (strTimedelta (ot - r.PitInTime.getD 0))))
        ([wPitRow].filter (fun r => r.PitInTime.isSome))
        [{ driver := "LEC", team := "Ferrari", lap_number := 14,
           pit_duration := some (strTimedelta 23000000) }] :=
  pit_stops_characterization [wPitRow]
    [{ driver := "LEC", team := "Ferrari", lap_number := 14,
       pit_duration := some (strTimedelta 23000000) }] (by rfl)

/-- Claim C2 counterexample: `load_session` reports success whenever the
collaborator's fetch and parse succeed, even though the extraction pass then
fails on a malformed `Position` cell; starting from the initial state the
load returns `True` while `last_update` stays `None` and `positions` stays
empty, shorter than the one-row results table. -/
theorem successful_load_may_leave_last_update_none :
    (load_session (Except.ok cex2Session) (none : Option Session) initial_session_data
        "2024-12-08T13:00:00").1 = true ∧
      (load_session (Except.ok cex2Session) (none : Option Session) initial_session_data
        "2024-12-08T13:00:00").2.2.last_update = none ∧
      (load_session (Except.ok cex2Session) (none : Option Session) initial_session_data
        "2024-12-08T13:00:00").2.2.positions.length ≠ cex2Session.results.length := by
  decide

/-- Claim C2 amended: for every call of `load_session` that returns success
and whose extraction pass completes without error (every fallible extraction
returns `ok`), `last_update` is non-null and the length of `positions`
equals the number of rows in the collaborator session's results table. -/
theorem successful_load_with_clean_extraction (s : Session) (cs : Option Session)
    (sd : SessionData) (now : String) (ps : List DriverResult) (fl : List LapRecord)
    (pits : List PitStopRecord)
    (hps : extractPositions s.results = Except.ok ps)
    (hfl : extractFastestLaps s.laps = Except.ok fl)
    (hpits : extractPitStops s.laps = Except.ok pits) :
    (load_session (Except.ok s) cs sd now).1 = true ∧
      (load_session (Except.ok s) cs sd now).2.2.last_update = some now ∧
      (load_session (Except.ok s) cs sd now).2.2.positions.length = s.results.length := by
  have hfull := update_core_full sd now hps hfl hpits
  refine ⟨rfl, hfull.1, ?_⟩
  show (update_session_data_core s sd now).positions.length = _
  rw [hfull.2.1]
  exact mapME_ok_length hps

/-- Claim C2 amended witness on a clean one-row session. -/
theorem successful_load_with_clean_extraction_witness :
    (load_session (Except.ok wSession) (none : Option Session) initial_session_data "T").1
        = true ∧
      (load_session (Except.ok wSession) (none : Option Session) initial_session_data
        "T").2.2.last_update = some "T" ∧
      (load_session (Except.ok wSession) (none : Option Session) initial_session_data
        "T").2.2.positions.length = wSession.results.length :=
  successful_load_with_clean_extraction wSession none initial_session_data "T"
    [{ position := 1, driver := "VER", full_name := "Max Verstappen", team := "Red Bull",
       number := 1, grid_position := some 1, status := "Finished" }] [] []
    (by rfl) extractFastestLaps_nil (by rfl)

/-- Claim C1 counterexample: in `cex1Session` only the positions category is
malformed while the track-status, lap and race-control tables are present,
clean and nonempty, yet after `update_session_data` none of the other
categories has been updated from the session's data — the single `try` block
aborts the whole pass, so the claimed independent guarding is false. -/
theorem extraction_not_independently_guarded :
    (∃ r ∈ cex1Session.results, r.Position = none) ∧
      (∃ ts, cex1Session.track_status = some ts ∧ extractTrackStatus ts ≠ []) ∧
      (∃ fl, extractFastestLaps cex1Session.laps = Except.ok fl ∧ fl ≠ []) ∧
      (update_session_data (some cex1Session) initial_session_data "T").track_status = [] ∧
      (update_session_data (some cex1Session) initial_session_data "T").fastest_laps = [] ∧
      (update_session_data (some cex1Session) initial_session_data
        "T").race_control_messages = [] := by
  refine ⟨⟨_, List.mem_singleton.mpr rfl, rfl⟩, ⟨_, rfl, by decide⟩, ?_, by decide, by decide,
    by decide⟩
  refine ⟨[{ driver := "PIA", team := "McLaren", lap_number := 3,
             lap_time := strTimedelta 92000000,
             lap_time_seconds := totalSeconds 92000000 }],
    ?_, by decide⟩
  show extractFastestLaps cex1Session.laps = _
  simp only [extractFastestLaps, cex1Session, List.filter, Option.isSome,
    List.mergeSort_singleton, List.take, mapME, lapRecordOfRow, intConv]
  rfl

/-- Claim C1 amended: only the two optional collaborator attributes are
independently guarded — when `track_status` or `race_control_messages` is
absent that category retains its previous value while the rest of the pass
proceeds; a malformed category instead aborts the pass at its statement:
the positions-extraction failure leaves the whole snapshot unchanged, and
when positions succeed they are stored regardless of later failures, with
a present track-status table extracted right after. -/
theorem extraction_guarding_characterization (s : Session) (sd : SessionData) (now : String) :
    (s.track_status = none →
        (update_session_data (some s) sd now).track_status = sd.track_status) ∧
      (s.race_control_messages = none →
        (update_session_data (some s) sd now).race_control_messages
          = sd.race_control_messages) ∧
      (extractPositions s.results = Except.error () →
        update_session_data (some s) sd now = sd) ∧
      (∀ ps, extractPositions s.results = Except.ok ps →
        (update_session_data (some s) sd now).positions = ps) ∧
      (∀ ps ts, extractPositions s.results = Except.ok ps → s.track_status = some ts →
        (update_session_data (some s) sd now).track_status = extractTrackStatus ts) := by
  refine ⟨fun h => update_core_ts_none sd now h, fun h => update_core_rc_none sd now h,
    fun h => update_core_pos_error sd now h, fun ps h => update_core_positions sd now h,
    fun ps ts hps hts => update_core_ts_some sd now hps hts⟩

/-- Claim C1 amended witness: with the optional attributes absent and clean
results, positions are stored and track status is retained. -/
theorem extraction_guarding_witness :
    (update_session_data (some wSession) initial_session_data "T").track_status
        = initial_session_data.track_status ∧
      (update_session_data (some wSession) initial_session_data "T").positions
        = [{ position := 1, driver := "VER", full_name := "Max Verstappen",
             team := "Red Bull", number := 1, grid_position := some 1,
             status := "Finished" }] :=
  ⟨(extraction_guarding_characterization wSession initial_session_data "T").1 rfl,
    (extraction_guarding_characterization wSession initial_session_data "T").2.2.2.1 _ (by rfl)⟩

theorem lapRecordOfRow_ok_seconds {r : LapRow} {rec : LapRecord}
    (h : lapRecordOfRow r = Except.ok rec) :
    rec.lap_time_seconds = totalSeconds (r.LapTime.getD 0) := by
  unfold lapRecordOfRow at h
  cases hln : r.LapNumber with
  | none => rw [hln] at h; cases h
  | some ln => rw [hln] at h; cases h; rfl

theorem totalSeconds_mono {a b : Int} (h : a ≤ b) : totalSeconds a ≤ totalSeconds b := by
  unfold totalSeconds
  have h2 : (a : ℚ) ≤ (b : ℚ) := by exact_mod_cast h
  gcongr

theorem lapTimeLe_trans (a b c : LapRow) (h1 : lapTimeLe a b = true)
    (h2 : lapTimeLe b c = true) : lapTimeLe a c = true := by
  unfold lapTimeLe at *
  simp only [decide_eq_true_eq] at *
  omega

theorem lapTimeLe_total (a b : LapRow) : (lapTimeLe a b || lapTimeLe b a) = true := by
  unfold lapTimeLe
  simp only [Bool.or_eq_true, decide_eq_true_eq]
  omega

theorem extractFastestLaps_sorted {laps : List LapRow} {fl : List LapRecord}
    (h : extractFastestLaps laps = Except.ok fl) :
    fl.length ≤ 10 ∧ fl.Pairwise (fun a b => a.lap_time_seconds ≤ b.lap_time_seconds) := by
  constructor
  · exact le_trans (le_of_eq (mapME_ok_length h)) (List.length_take_le _ _)
  · have hrows := List.sorted_mergeSort lapTimeLe_trans lapTimeLe_total
      (laps.filter (fun r => r.LapTime.isSome))
    have htake := List.Pairwise.sublist (List.take_sublist 10 _) hrows
    refine forall2_pairwise ?_ (mapME_ok_forall2 h) htake
    intro r r' rec rec' h1 h2 hle
    rw [lapRecordOfRow_ok_seconds h1, lapRecordOfRow_ok_seconds h2]
    exact totalSeconds_mono (of_decide_eq_true hle)

/-- Claim C5 counterexample: with one stored fastest lap and the integer
query parameter `-1`, the endpoint returns zero entries while the claimed
count `min (-1) 1 = -1` is impossible, so the claim fails for negative
integer parameters (Python slices count negative bounds from the end). -/
theorem fastest_laps_negative_limit_counterexample :
    ((get_fastest_laps cex5Data (some (-1))).length : Int) ≠
      min (-1 : Int) (cex5Data.fastest_laps.length : Int) := by
  decide

/-- Claim C5 amended: for every nonnegative integer parameter `N` the
endpoint returns exactly `min N fastest_laps.length` entries (default 5 when
the parameter is absent); a successfully extracted `fastest_laps` list has
at most 10 entries and is sorted ascending by `lap_time_seconds` (it filters
laps with a recorded lap time, sorts ascending, takes the fastest 10); and
the endpoint's slice of a sorted snapshot list is itself sorted. -/
theorem fastest_laps_limit_spec :
    (∀ (sd : SessionData) (n : Int), 0 ≤ n →
        (get_fastest_laps sd (some n)).length = min n.toNat sd.fastest_laps.length) ∧
      (∀ sd : SessionData,
        (get_fastest_laps sd none).length = min 5 sd.fastest_laps.length) ∧
      (∀ (laps : List LapRow) (fl : List LapRecord),
        extractFastestLaps laps = Except.ok fl →
          fl.length ≤ 10 ∧ fl.Pairwise (fun a b => a.lap_time_seconds ≤ b.lap_time_seconds)) ∧
      (∀ (sd : SessionData) (m : Option Int),
        sd.fastest_laps.Pairwise (fun a b => a.lap_time_seconds ≤ b.lap_time_seconds) →
          (get_fastest_laps sd m).Pairwise
            (fun a b => a.lap_time_seconds ≤ b.lap_time_seconds)) := by
  refine ⟨?_, ?_, fun laps fl h => extractFastestLaps_sorted h, ?_⟩
  · intro sd n h
    unfold get_fastest_laps pySliceTo
    rw [show ((some n).getD 5) = n from rfl, if_pos h, List.length_take]
  · intro sd
    unfold get_fastest_laps pySliceTo
    rw [show (((none : Option Int)).getD 5) = 5 from rfl,
      if_pos (by norm_num : (0 : Int) ≤ 5), List.length_take]
    rfl
  · intro sd m hp
    unfold get_fastest_laps pySliceTo
    split
    · exact List.Pairwise.sublist (List.take_sublist _ _) hp
    · exact List.Pairwise.sublist (List.take_sublist _ _) hp

/-- Claim C5 amended witness: the count law at `N = 1` on a one-entry
snapshot, and the extraction law on the empty lap table. -/
theorem fastest_laps_limit_spec_witness :
    (get_fastest_laps cex5Data (some 1)).length
        = min ((1 : Int)).toNat cex5Data.fastest_laps.length ∧
      (([] : List LapRecord).length ≤ 10 ∧
        ([] : List LapRecord).Pairwise
          (fun a b => a.lap_time_seconds ≤ b.lap_time_seconds)) :=
  ⟨fastest_laps_limit_spec.1 cex5Data 1 (by norm_num),
    fastest_laps_limit_spec.2.2.1 [] [] extractFastestLaps_nil⟩

end F1
